import Mathlib

/-!
Shallow embedding of `src/scripts/python/run_whisper.py`.

The script is a single linear `__main__` block: it reconfigures the output
encoding, validates argv, checks that the input file exists, creates a
temporary `.wav` path, invokes ffmpeg as a subprocess with a fixed target
profile, falls back to the original file if ffmpeg fails, loads a whisper
model, transcribes, prints the text to stdout, and in a `finally` block
removes the temporary file.

The external world (filesystem, ffmpeg outcome, whisper behaviour, unlink
outcome) is an `Env`; the observable behaviour of one process invocation is
a `RunResult` (captured stdout, stderr lines, exit code, plus a trace of
the external calls made). `run argv env` is the embedding of the script.
-/

set_option autoImplicit false

/-- Observable outcome of one invocation of the script: the bytes printed to
stdout, the lines printed to stderr (in order), the process exit code, the
ffmpeg command lines spawned, the model names passed to the engine loader,
the (audio path, language option) pairs passed to the transcribe call, the
temporary file path created by `tempfile.NamedTemporaryFile` (if any), and
whether that temporary file is still on disk when the process exits. -/
structure RunResult where
  stdout : String
  stderr : List String
  exitCode : Nat
  ffmpegInvocations : List (List String)
  modelLoads : List String
  engineCalls : List (String × Option String)
  tempCreated : Option String
  tempExistsAfter : Bool
  deriving Repr, DecidableEq

/-- The external world as seen by the script: which paths exist, the stem of
the temporary file name handed out by the tempfile library (the library
appends the requested `.wav` suffix), the ffmpeg subprocess outcome
(returncode and captured streams), the behaviour of `whisper.load_model`
and `model.transcribe` (which may raise, modelled as `Except.error`),
whether `os.unlink` of the temp file raises, and whether stdout is already
UTF-8 or the `reconfigure` call raises. -/
structure Env where
  pathExists : String → Bool
  tempStem : String
  ffmpegReturncode : Int
  ffmpegStdout : String
  ffmpegStderr : String
  loadModel : String → Except String Unit
  transcribe : String → Option String → Except String String
  unlinkError : Option String
  stdoutEncodingUtf8 : Bool
  reconfigureError : Option String

/-- The message printed by the top-level `except Exception` handler. -/
def pythonTopError (e : String) : String :=
  "Ocorreu um erro no script Python (run_whisper.py): " ++ e

/-- `str.lower()` on the language hint. Identical to `String.toLower`
(`String.map Char.toLower`), written over the character list so that it
reduces inside the kernel. -/
def strLower (s : String) : String :=
  ⟨s.data.map Char.toLower⟩

/-- `options = \x7b\x7d; if language and language.lower() != "auto":
options["language"] = language` — the language constraint actually put in
the options dict. Python truthiness makes the empty string fall into the
no-constraint branch. -/
def whisperOptions (language : String) : Option String :=
  if language ≠ "" ∧ strLower language ≠ "auto" then some language else none

/-- The temp path returned by `tempfile.NamedTemporaryFile(suffix=".wav")`:
a library-chosen stem with the requested suffix appended. -/
def tempWavPath (env : Env) : String :=
  env.tempStem ++ ".wav"

/-- The exact argument list of the ffmpeg subprocess. -/
def ffmpegCommand (original temp : String) : List String :=
  ["ffmpeg", "-y", "-i", original, "-acodec", "pcm_s16le", "-ar", "16000",
   "-ac", "1", temp]

/-- The audio path handed to `model.transcribe`: the original input when the
ffmpeg conversion failed (non-zero returncode), the temp WAV otherwise. -/
def chosenAudio (env : Env) (original : String) : String :=
  if env.ffmpegReturncode ≠ 0 then original else tempWavPath env

/-- Trace before anything has happened. -/
def emptyTrace : RunResult :=
  { stdout := ""
    stderr := []
    exitCode := 0
    ffmpegInvocations := []
    modelLoads := []
    engineCalls := []
    tempCreated := none
    tempExistsAfter := false }

/-- The stdout/stderr UTF-8 reconfiguration at the top of the script: if the
encoding is already UTF-8 nothing happens; otherwise `reconfigure` is tried
and a failure prints a warning to stderr. -/
def initTrace (env : Env) : RunResult :=
  { emptyTrace with stderr :=
      if env.stdoutEncodingUtf8 then []
      else
        match env.reconfigureError with
        | none => []
        | some e => ["Warning: Could not reconfigure stdout/stderr to UTF-8: " ++ e] }

/-- The `finally` block: if a temp path was created and the file still
exists on disk, `os.unlink` it; a raise from `os.unlink` is caught and
printed as a warning, leaving the exit code untouched. -/
def applyFinally (env : Env) (t : RunResult) : RunResult :=
  match t.tempCreated with
  | none => t
  | some p =>
    if t.tempExistsAfter then
      match env.unlinkError with
      | none =>
          { t with tempExistsAfter := false
                   stderr := t.stderr ++
                     ["Info: Arquivo WAV temporário removido: " ++ p] }
      | some e =>
          { t with stderr := t.stderr ++
              ["Warning: Falha ao remover arquivo WAV temporário " ++ p ++ ": " ++ e] }
    else t

/-- The body of the `try` block, after argv validation: existence check,
temp file creation, ffmpeg invocation with fallback, model load,
transcription, and the final `print(result["text"])`. -/
def tryBody (env : Env) (t0 : RunResult) (original : String)
    (rest : List String) : RunResult :=
  if env.pathExists original then
    let temp := tempWavPath env
    let cmd := ffmpegCommand original temp
    let t1 : RunResult :=
      { t0 with
          tempCreated := some temp
          tempExistsAfter := true
          stderr := t0.stderr ++
            ["Info: Tentando converter \x27" ++ original ++ "\x27 para WAV em \x27" ++
              temp ++ "\x27 com comando: " ++ String.intercalate " " cmd]
          ffmpegInvocations := t0.ffmpegInvocations ++ [cmd] }
    let t2 : RunResult :=
      if env.ffmpegReturncode ≠ 0 then
        { t1 with stderr := t1.stderr ++
            ["Erro: FFmpeg falhou ao converter o arquivo para WAV.",
             "FFmpeg stdout: " ++ env.ffmpegStdout,
             "FFmpeg stderr: " ++ env.ffmpegStderr,
             "Info: Conversão FFmpeg falhou. Tentando transcrever o arquivo original: " ++
               original] }
      else
        { t1 with stderr := t1.stderr ++
            ["Info: FFmpeg converteu com sucesso para \x27" ++ temp ++ "\x27."] }
    let audio := chosenAudio env original
    let model_size := rest.headD "base"
    let language := (rest.drop 1).headD "auto"
    let t3 : RunResult := { t2 with modelLoads := t2.modelLoads ++ [model_size] }
    match env.loadModel model_size with
    | Except.error e =>
        { t3 with stderr := t3.stderr ++ [pythonTopError e], exitCode := 1 }
    | Except.ok _ =>
      let opts := whisperOptions language
      let t4 : RunResult :=
        { t3 with
            stderr := t3.stderr ++
              ["Info: Transcrevendo arquivo: \x27" ++ audio ++ "\x27 com modelo \x27" ++
                model_size ++ "\x27 e idioma \x27" ++ language ++ "\x27"]
            engineCalls := t3.engineCalls ++ [(audio, opts)] }
      match env.transcribe audio opts with
      | Except.error e =>
          { t4 with stderr := t4.stderr ++ [pythonTopError e], exitCode := 1 }
      | Except.ok text =>
          { t4 with stdout := text ++ "\n", exitCode := 0 }
  else
    { t0 with
        stderr := t0.stderr ++
          ["Erro: Arquivo de áudio original não encontrado em \x27" ++ original ++ "\x27"]
        exitCode := 1 }

/-- One full invocation of the script with argument vector `argv`
(`argv.head` is the program name, as in `sys.argv`). The argv-length check
happens before the `try`, so its exit path does not run the `finally`
block; every path inside the `try` does. -/
def run (argv : List String) (env : Env) : RunResult :=
  match argv with
  | _prog :: original :: rest => applyFinally env (tryBody env (initTrace env) original rest)
  | _ =>
      { initTrace env with
          stderr := (initTrace env).stderr ++
            ["Erro: Forneça pelo menos o caminho do arquivo de áudio."]
          exitCode := 1 }

/-! ### Basic lemmas about the pieces -/

theorem applyFinally_stdout (env : Env) (t : RunResult) :
    (applyFinally env t).stdout = t.stdout := by
  unfold applyFinally
  split
  · rfl
  · split
    · split <;> rfl
    · rfl

theorem applyFinally_exitCode (env : Env) (t : RunResult) :
    (applyFinally env t).exitCode = t.exitCode := by
  unfold applyFinally
  split
  · rfl
  · split
    · split <;> rfl
    · rfl

theorem applyFinally_ffmpegInvocations (env : Env) (t : RunResult) :
    (applyFinally env t).ffmpegInvocations = t.ffmpegInvocations := by
  unfold applyFinally
  split
  · rfl
  · split
    · split <;> rfl
    · rfl

theorem applyFinally_modelLoads (env : Env) (t : RunResult) :
    (applyFinally env t).modelLoads = t.modelLoads := by
  unfold applyFinally
  split
  · rfl
  · split
    · split <;> rfl
    · rfl

theorem applyFinally_engineCalls (env : Env) (t : RunResult) :
    (applyFinally env t).engineCalls = t.engineCalls := by
  unfold applyFinally
  split
  · rfl
  · split
    · split <;> rfl
    · rfl

theorem applyFinally_tempCreated (env : Env) (t : RunResult) :
    (applyFinally env t).tempCreated = t.tempCreated := by
  unfold applyFinally
  split
  · rfl
  · split
    · split <;> rfl
    · rfl

theorem applyFinally_stderr_mem (env : Env) (t : RunResult) (m : String)
    (h : m ∈ t.stderr) : m ∈ (applyFinally env t).stderr := by
  unfold applyFinally
  split
  · exact h
  · split
    · split <;> exact List.mem_append_left _ h
    · exact h

theorem applyFinally_keeps_false (env : Env) (t : RunResult)
    (h : t.tempExistsAfter = false) :
    (applyFinally env t).tempExistsAfter = false := by
  unfold applyFinally
  split
  · exact h
  · split
    · next hc => rw [h] at hc; exact absurd hc (by simp)
    · exact h

theorem applyFinally_deletes (env : Env) (t : RunResult) (p : String)
    (hc : t.tempCreated = some p) (he : t.tempExistsAfter = true)
    (hu : env.unlinkError = none) :
    (applyFinally env t).tempExistsAfter = false ∧
    ("Info: Arquivo WAV temporário removido: " ++ p) ∈ (applyFinally env t).stderr := by
  unfold applyFinally
  rw [hc, he, hu]
  simp

theorem applyFinally_warns (env : Env) (t : RunResult) (p e : String)
    (hc : t.tempCreated = some p) (he : t.tempExistsAfter = true)
    (hu : env.unlinkError = some e) :
    ("Warning: Falha ao remover arquivo WAV temporário " ++ p ++ ": " ++ e) ∈
      (applyFinally env t).stderr := by
  unfold applyFinally
  rw [hc, he, hu]
  simp

theorem tryBody_temp (env : Env) (o : String) (r : List String) :
    ((tryBody env (initTrace env) o r).tempCreated = some (tempWavPath env) ∧
      (tryBody env (initTrace env) o r).tempExistsAfter = true) ∨
    ((tryBody env (initTrace env) o r).tempCreated = none ∧
      (tryBody env (initTrace env) o r).tempExistsAfter = false) := by
  unfold tryBody
  dsimp only
  split
  · left
    split
    · split <;> exact ⟨rfl, rfl⟩
    · split
      · split <;> exact ⟨rfl, rfl⟩
      · split <;> exact ⟨rfl, rfl⟩
  · right
    exact ⟨rfl, rfl⟩

theorem initTrace_unlink (env : Env) (u : Option String) :
    initTrace { env with unlinkError := u } = initTrace env := by
  cases env
  rfl

theorem tryBody_unlink (env : Env) (u : Option String) (t0 : RunResult)
    (o : String) (r : List String) :
    tryBody { env with unlinkError := u } t0 o r = tryBody env t0 o r := by
  cases env
  rfl

theorem run_exitCode_unlink (argv : List String) (env : Env) (u : Option String) :
    (run argv { env with unlinkError := u }).exitCode = (run argv env).exitCode := by
  match argv with
  | [] => rfl
  | [_] => rfl
  | _prog :: original :: rest =>
    show (applyFinally _ _).exitCode = (applyFinally _ _).exitCode
    rw [applyFinally_exitCode, applyFinally_exitCode, initTrace_unlink, tryBody_unlink]

theorem run_stdout_shape (argv : List String) (env : Env) :
    (run argv env).stdout = "" ∨
    ∃ p l t, env.transcribe p l = Except.ok t ∧
      (run argv env).stdout = t ++ "\n" ∧ (run argv env).exitCode = 0 := by
  match argv with
  | [] => left; rfl
  | [_] => left; rfl
  | _prog :: original :: rest =>
    rw [show (run (_prog :: original :: rest) env).stdout
          = (tryBody env (initTrace env) original rest).stdout from
        applyFinally_stdout env (tryBody env (initTrace env) original rest)]
    rw [show (run (_prog :: original :: rest) env).exitCode
          = (tryBody env (initTrace env) original rest).exitCode from
        applyFinally_exitCode env (tryBody env (initTrace env) original rest)]
    unfold tryBody
    dsimp only
    split
    · split
      · left
        split <;> rfl
      · split
        · left
          split <;> rfl
        · next text ht =>
            right
            exact ⟨_, _, text, ht, rfl, rfl⟩
    · left
      rfl

/-! ### Concrete environments used to witness the theorems -/

/-- A world where everything succeeds: the input exists, ffmpeg exits 0,
the model loads, and transcription returns a fixed text. -/
def okEnv : Env :=
  { pathExists := fun _ => true
    tempStem := "/tmp/t"
    ffmpegReturncode := 0
    ffmpegStdout := ""
    ffmpegStderr := ""
    loadModel := fun _ => Except.ok ()
    transcribe := fun _ _ => Except.ok "olá mundo"
    unlinkError := none
    stdoutEncodingUtf8 := true
    reconfigureError := none }

/-! ### C1 -/

/-- C1: when the transcoder and the transcription engine both succeed, the
bytes written to stdout are exactly the engine text followed by one
newline; and on every branch of every invocation, stdout is either empty
or that single payload — all diagnostics go to stderr, never stdout. -/
theorem run_stdout_payload :
    (∀ argv env, (run argv env).stdout = "" ∨
      ∃ p l t, env.transcribe p l = Except.ok t ∧
        (run argv env).stdout = t ++ "\n") ∧
    (∀ prog original rest env t,
      env.pathExists original = true →
      env.ffmpegReturncode = 0 →
      env.loadModel (rest.headD "base") = Except.ok () →
      env.transcribe (tempWavPath env) (whisperOptions ((rest.drop 1).headD "auto"))
        = Except.ok t →
      (run (prog :: original :: rest) env).stdout = t ++ "\n") := by
  constructor
  · intro argv env
    rcases run_stdout_shape argv env with h | ⟨p, l, t, ht, hs, _⟩
    · exact Or.inl h
    · exact Or.inr ⟨p, l, t, ht, hs⟩
  · intro prog original rest env t hex hrc hl ht
    rw [show (run (prog :: original :: rest) env).stdout
          = (tryBody env (initTrace env) original rest).stdout from
        applyFinally_stdout env (tryBody env (initTrace env) original rest)]
    unfold tryBody
    rw [if_pos hex]
    dsimp only
    rw [hl]
    dsimp only
    have hca : chosenAudio env original = tempWavPath env := by
      simp [chosenAudio, hrc]
    rw [hca, ht]

/-- Witness for C1 at a concrete invocation: the happy path prints exactly
the transcribed text and a newline. -/
theorem run_stdout_payload_witness :
    (run ["run_whisper.py", "a.webm"] okEnv).stdout = "olá mundo\n" :=
  run_stdout_payload.2 "run_whisper.py" "a.webm" [] okEnv "olá mundo"
    rfl rfl rfl rfl

/-! ### C2 -/

/-- C2: on every exit path, if the temporary WAV path was created (and in
this model it is then still on disk), the `finally` block deletes it when
`os.unlink` succeeds; an `os.unlink` failure is logged as a warning on
stderr and leaves the exit code exactly what it would have been had the
deletion succeeded. -/
theorem run_temp_cleanup (argv : List String) (env : Env) (p : String)
    (hc : (run argv env).tempCreated = some p) :
    (env.unlinkError = none →
      (run argv env).tempExistsAfter = false ∧
      ("Info: Arquivo WAV temporário removido: " ++ p) ∈ (run argv env).stderr) ∧
    (∀ e, env.unlinkError = some e →
      ("Warning: Falha ao remover arquivo WAV temporário " ++ p ++ ": " ++ e) ∈
        (run argv env).stderr) ∧
    (run argv env).exitCode = (run argv { env with unlinkError := none }).exitCode := by
  match argv with
  | [] => exact Option.noConfusion hc
  | [_] => exact Option.noConfusion hc
  | _prog :: original :: rest =>
    have hc' : (tryBody env (initTrace env) original rest).tempCreated = some p := by
      rw [← applyFinally_tempCreated env (tryBody env (initTrace env) original rest)]
      exact hc
    rcases tryBody_temp env original rest with ⟨h1, h2⟩ | ⟨h1, h2⟩
    · refine ⟨?_, ?_, ?_⟩
      · intro hu
        exact applyFinally_deletes env (tryBody env (initTrace env) original rest) p hc' h2 hu
      · intro e hu
        exact applyFinally_warns env (tryBody env (initTrace env) original rest) p e hc' h2 hu
      · exact (run_exitCode_unlink (_prog :: original :: rest) env none).symm
    · rw [hc'] at h1
      exact Option.noConfusion h1

/-- A world identical to `okEnv` except that removing the temp file fails. -/
def unlinkFailEnv : Env :=
  { okEnv with unlinkError := some "Permission denied" }

/-- Witness for C2 at a concrete invocation: with a failing `os.unlink`, the
warning is on stderr and the exit code equals the one of the same run with
a succeeding `os.unlink`. -/
theorem run_temp_cleanup_witness :
    ("Warning: Falha ao remover arquivo WAV temporário " ++ "/tmp/t.wav" ++ ": " ++
        "Permission denied") ∈ (run ["run_whisper.py", "a.webm"] unlinkFailEnv).stderr ∧
    (run ["run_whisper.py", "a.webm"] unlinkFailEnv).exitCode
      = (run ["run_whisper.py", "a.webm"]
          { unlinkFailEnv with unlinkError := none }).exitCode :=
  ⟨(run_temp_cleanup ["run_whisper.py", "a.webm"] unlinkFailEnv "/tmp/t.wav" rfl).2.1
      "Permission denied" rfl,
   (run_temp_cleanup ["run_whisper.py", "a.webm"] unlinkFailEnv "/tmp/t.wav" rfl).2.2⟩

/-! ### C3 -/

/-- C3: when ffmpeg exits non-zero the script does not abort: it logs the
failure and both captured streams to stderr, calls the engine on the
ORIGINAL input path instead of the temp WAV, and still exits 0 when that
transcription succeeds. -/
theorem run_transcoder_fallback (prog original : String) (rest : List String)
    (env : Env)
    (hex : env.pathExists original = true)
    (hrc : env.ffmpegReturncode ≠ 0)
    (hl : env.loadModel (rest.headD "base") = Except.ok ()) :
    (run (prog :: original :: rest) env).engineCalls
      = [(original, whisperOptions ((rest.drop 1).headD "auto"))] ∧
    "Erro: FFmpeg falhou ao converter o arquivo para WAV."
      ∈ (run (prog :: original :: rest) env).stderr ∧
    ("FFmpeg stdout: " ++ env.ffmpegStdout) ∈ (run (prog :: original :: rest) env).stderr ∧
    ("FFmpeg stderr: " ++ env.ffmpegStderr) ∈ (run (prog :: original :: rest) env).stderr ∧
    (∀ t, env.transcribe original (whisperOptions ((rest.drop 1).headD "auto"))
        = Except.ok t →
      (run (prog :: original :: rest) env).exitCode = 0) := by
  have key : (tryBody env (initTrace env) original rest).engineCalls
      = [(original, whisperOptions ((rest.drop 1).headD "auto"))] ∧
      "Erro: FFmpeg falhou ao converter o arquivo para WAV."
        ∈ (tryBody env (initTrace env) original rest).stderr ∧
      ("FFmpeg stdout: " ++ env.ffmpegStdout)
        ∈ (tryBody env (initTrace env) original rest).stderr ∧
      ("FFmpeg stderr: " ++ env.ffmpegStderr)
        ∈ (tryBody env (initTrace env) original rest).stderr ∧
      (∀ t, env.transcribe original (whisperOptions ((rest.drop 1).headD "auto"))
          = Except.ok t →
        (tryBody env (initTrace env) original rest).exitCode = 0) := by
    unfold tryBody
    rw [if_pos hex]
    dsimp only
    rw [if_pos hrc]
    have hca : chosenAudio env original = original := by
      unfold chosenAudio
      rw [if_pos hrc]
    rw [hca, hl]
    dsimp only
    cases ht : env.transcribe original (whisperOptions ((rest.drop 1).headD "auto")) with
    | error e =>
      dsimp only
      refine ⟨rfl, by simp, by simp, by simp, ?_⟩
      intro t htt
      exact Except.noConfusion htt
    | ok text =>
      dsimp only
      exact ⟨rfl, by simp, by simp, by simp, fun t _ => rfl⟩
  refine ⟨?_, ?_, ?_, ?_, ?_⟩
  · rw [show (run (prog :: original :: rest) env).engineCalls
        = (tryBody env (initTrace env) original rest).engineCalls from
      applyFinally_engineCalls env (tryBody env (initTrace env) original rest)]
    exact key.1
  · exact applyFinally_stderr_mem env (tryBody env (initTrace env) original rest) _ key.2.1
  · exact applyFinally_stderr_mem env (tryBody env (initTrace env) original rest) _ key.2.2.1
  · exact applyFinally_stderr_mem env (tryBody env (initTrace env) original rest) _ key.2.2.2.1
  · intro t htt
    rw [show (run (prog :: original :: rest) env).exitCode
        = (tryBody env (initTrace env) original rest).exitCode from
      applyFinally_exitCode env (tryBody env (initTrace env) original rest)]
    exact key.2.2.2.2 t htt

/-- A world identical to `okEnv` except that ffmpeg exits 1 with diagnostic
streams. -/
def ffmpegFailEnv : Env :=
  { okEnv with
      ffmpegReturncode := 1
      ffmpegStdout := "ffmpeg out"
      ffmpegStderr := "ffmpeg err" }

/-- Witness for C3 at a concrete invocation: with ffmpeg failing, the engine
is invoked on the original input and the process exits 0. -/
theorem run_transcoder_fallback_witness :
    (run ["run_whisper.py", "a.webm"] ffmpegFailEnv).engineCalls
      = [("a.webm", (none : Option String))] ∧
    (run ["run_whisper.py", "a.webm"] ffmpegFailEnv).exitCode = 0 :=
  ⟨(run_transcoder_fallback "run_whisper.py" "a.webm" [] ffmpegFailEnv rfl
      (by decide) rfl).1,
   (run_transcoder_fallback "run_whisper.py" "a.webm" [] ffmpegFailEnv rfl
      (by decide) rfl).2.2.2.2 "olá mundo" rfl⟩

/-! ### C4 -/

/-- C4: when the engine raises — either at model load or during
transcription — the process exits 1 with empty stdout, the top-level
handler message is on stderr, and the temp file (always created once the
input exists) is still removed when `os.unlink` succeeds. -/
theorem run_engine_failure (prog original : String) (rest : List String)
    (env : Env) (e : String)
    (hex : env.pathExists original = true)
    (hfail : env.loadModel (rest.headD "base") = Except.error e ∨
      (env.loadModel (rest.headD "base") = Except.ok () ∧
        env.transcribe (chosenAudio env original)
          (whisperOptions ((rest.drop 1).headD "auto")) = Except.error e)) :
    (run (prog :: original :: rest) env).exitCode = 1 ∧
    (run (prog :: original :: rest) env).stdout = "" ∧
    pythonTopError e ∈ (run (prog :: original :: rest) env).stderr ∧
    (env.unlinkError = none →
      (run (prog :: original :: rest) env).tempExistsAfter = false) := by
  have key : (tryBody env (initTrace env) original rest).exitCode = 1 ∧
      (tryBody env (initTrace env) original rest).stdout = "" ∧
      pythonTopError e ∈ (tryBody env (initTrace env) original rest).stderr := by
    unfold tryBody
    rw [if_pos hex]
    dsimp only
    rcases hfail with hl | ⟨hl, ht⟩
    · rw [hl]
      dsimp only
      refine ⟨rfl, ?_, ?_⟩
      · split <;> rfl
      · simp
    · rw [hl]
      dsimp only
      rw [ht]
      dsimp only
      refine ⟨rfl, ?_, ?_⟩
      · split <;> rfl
      · simp
  refine ⟨?_, ?_, ?_, ?_⟩
  · rw [show (run (prog :: original :: rest) env).exitCode
        = (tryBody env (initTrace env) original rest).exitCode from
      applyFinally_exitCode env (tryBody env (initTrace env) original rest)]
    exact key.1
  · rw [show (run (prog :: original :: rest) env).stdout
        = (tryBody env (initTrace env) original rest).stdout from
      applyFinally_stdout env (tryBody env (initTrace env) original rest)]
    exact key.2.1
  · exact applyFinally_stderr_mem env (tryBody env (initTrace env) original rest) _ key.2.2
  · intro hu
    rcases tryBody_temp env original rest with ⟨h1, h2⟩ | ⟨_, h2⟩
    · exact (applyFinally_deletes env (tryBody env (initTrace env) original rest)
        (tempWavPath env) h1 h2 hu).1
    · exact applyFinally_keeps_false env (tryBody env (initTrace env) original rest) h2

/-- A world identical to `okEnv` except that the transcription call
raises. -/
def transcribeFailEnv : Env :=
  { okEnv with transcribe := fun _ _ => Except.error "inference failed" }

/-- Witness for C4 at a concrete invocation: a raising transcribe call
yields exit 1, empty stdout, the handler message on stderr, and no leaked
temp file. -/
theorem run_engine_failure_witness :
    (run ["run_whisper.py", "a.webm"] transcribeFailEnv).exitCode = 1 ∧
    (run ["run_whisper.py", "a.webm"] transcribeFailEnv).stdout = "" ∧
    pythonTopError "inference failed"
      ∈ (run ["run_whisper.py", "a.webm"] transcribeFailEnv).stderr ∧
    (run ["run_whisper.py", "a.webm"] transcribeFailEnv).tempExistsAfter = false :=
  ⟨(run_engine_failure "run_whisper.py" "a.webm" [] transcribeFailEnv
      "inference failed" rfl (Or.inr ⟨rfl, rfl⟩)).1,
   (run_engine_failure "run_whisper.py" "a.webm" [] transcribeFailEnv
      "inference failed" rfl (Or.inr ⟨rfl, rfl⟩)).2.1,
   (run_engine_failure "run_whisper.py" "a.webm" [] transcribeFailEnv
      "inference failed" rfl (Or.inr ⟨rfl, rfl⟩)).2.2.1,
   (run_engine_failure "run_whisper.py" "a.webm" [] transcribeFailEnv
      "inference failed" rfl (Or.inr ⟨rfl, rfl⟩)).2.2.2 rfl⟩

/-! ### C5 -/

/-- C5 counterexample: the empty-string hint is not (case-insensitively)
"auto", yet the engine is invoked with NO language constraint rather than
with the exact hint string "" — refuting the claim that every hint other
than "auto" is passed through as an explicit constraint. -/
theorem run_language_hint_cex :
    strLower "" ≠ "auto" ∧ ("" : String) ≠ "auto" ∧
    (run ["run_whisper.py", "a.webm", "base", ""] okEnv).engineCalls
      = [("/tmp/t.wav", (none : Option String))] ∧
    whisperOptions "" ≠ some "" :=
  ⟨by decide, by decide, rfl, by decide⟩

/-- C5 (amended): a hint equal to the case-insensitive string "auto" — or
empty, by Python truthiness — yields no explicit language constraint; any
other (non-empty) hint is passed through exactly as the constraint. -/
theorem run_language_hint (prog original m lang : String) (rest : List String)
    (env : Env)
    (hex : env.pathExists original = true)
    (hl : env.loadModel m = Except.ok ()) :
    (run (prog :: original :: m :: lang :: rest) env).engineCalls
      = [(chosenAudio env original, whisperOptions lang)] ∧
    (strLower lang = "auto" → whisperOptions lang = none) ∧
    (lang = "" → whisperOptions lang = none) ∧
    (lang ≠ "" → strLower lang ≠ "auto" → whisperOptions lang = some lang) := by
  have key : (tryBody env (initTrace env) original (m :: lang :: rest)).engineCalls
      = [(chosenAudio env original, whisperOptions lang)] := by
    unfold tryBody
    rw [if_pos hex]
    dsimp only [List.headD, List.drop]
    rw [hl]
    dsimp only
    cases ht : env.transcribe (chosenAudio env original) (whisperOptions lang) with
    | error e =>
      dsimp only
      split <;> rfl
    | ok text =>
      dsimp only
      split <;> rfl
  refine ⟨?_, ?_, ?_, ?_⟩
  · rw [show (run (prog :: original :: m :: lang :: rest) env).engineCalls
        = (tryBody env (initTrace env) original (m :: lang :: rest)).engineCalls from
      applyFinally_engineCalls env (tryBody env (initTrace env) original (m :: lang :: rest))]
    exact key
  · intro h
    exact if_neg (fun hcon => hcon.2 h)
  · intro h
    exact if_neg (fun hcon => hcon.1 h)
  · intro h1 h2
    exact if_pos ⟨h1, h2⟩

/-- Witness for the amended C5 at a concrete invocation: the hint "pt" is
passed through as the explicit constraint. -/
theorem run_language_hint_witness :
    (run ["run_whisper.py", "a.webm", "base", "pt"] okEnv).engineCalls
      = [("/tmp/t.wav", some "pt")] :=
  (run_language_hint "run_whisper.py" "a.webm" "base" "pt" [] okEnv rfl rfl).1

/-! ### C6 -/

/-- C6: with fewer than one positional argument the script prints a
diagnostic to stderr, writes nothing to stdout, exits non-zero, and never
invokes ffmpeg, the model loader, or the engine. -/
theorem run_usage_error (argv : List String) (env : Env) (h : argv.length < 2) :
    (run argv env).stdout = "" ∧
    (run argv env).exitCode ≠ 0 ∧
    "Erro: Forneça pelo menos o caminho do arquivo de áudio." ∈ (run argv env).stderr ∧
    (run argv env).ffmpegInvocations = [] ∧
    (run argv env).modelLoads = [] ∧
    (run argv env).engineCalls = [] := by
  match argv with
  | [] =>
    exact ⟨rfl, Nat.one_ne_zero, by simp [run], rfl, rfl, rfl⟩
  | [_] =>
    exact ⟨rfl, Nat.one_ne_zero, by simp [run], rfl, rfl, rfl⟩
  | _ :: _ :: _ =>
    exfalso
    simp only [List.length_cons] at h
    omega

/-- Witness for C6 at a concrete invocation: the empty argument vector. -/
theorem run_usage_error_witness :
    (run ([] : List String) okEnv).stdout = "" ∧
    (run ([] : List String) okEnv).exitCode ≠ 0 :=
  ⟨(run_usage_error [] okEnv (by decide)).1, (run_usage_error [] okEnv (by decide)).2.1⟩

/-! ### C7 -/

/-- C7: when the input path does not exist the process exits non-zero,
stdout stays empty, and stderr carries a diagnostic line that contains the
path (as given on the command line). -/
theorem run_missing_input (prog original : String) (rest : List String) (env : Env)
    (h : env.pathExists original = false) :
    (run (prog :: original :: rest) env).exitCode ≠ 0 ∧
    (run (prog :: original :: rest) env).stdout = "" ∧
    ∃ line ∈ (run (prog :: original :: rest) env).stderr,
      ∃ pre post, line = pre ++ original ++ post := by
  have hcond : ¬(env.pathExists original = true) := by simp [h]
  refine ⟨?_, ?_, ?_⟩
  · rw [show (run (prog :: original :: rest) env).exitCode
        = (tryBody env (initTrace env) original rest).exitCode from
      applyFinally_exitCode env (tryBody env (initTrace env) original rest)]
    unfold tryBody
    rw [if_neg hcond]
    exact Nat.one_ne_zero
  · rw [show (run (prog :: original :: rest) env).stdout
        = (tryBody env (initTrace env) original rest).stdout from
      applyFinally_stdout env (tryBody env (initTrace env) original rest)]
    unfold tryBody
    rw [if_neg hcond]
    rfl
  · refine ⟨"Erro: Arquivo de áudio original não encontrado em \x27" ++ original ++ "\x27",
      ?_, "Erro: Arquivo de áudio original não encontrado em \x27", "\x27", rfl⟩
    refine applyFinally_stderr_mem env (tryBody env (initTrace env) original rest) _ ?_
    unfold tryBody
    rw [if_neg hcond]
    simp

/-- A world identical to `okEnv` except that no path exists. -/
def missingEnv : Env :=
  { okEnv with pathExists := fun _ => false }

/-- Witness for C7 at a concrete invocation: a missing input file. -/
theorem run_missing_input_witness :
    (run ["run_whisper.py", "nope.webm"] missingEnv).exitCode ≠ 0 ∧
    (run ["run_whisper.py", "nope.webm"] missingEnv).stdout = "" :=
  ⟨(run_missing_input "run_whisper.py" "nope.webm" [] missingEnv rfl).1,
   (run_missing_input "run_whisper.py" "nope.webm" [] missingEnv rfl).2.1⟩

/-! ### C8 -/

theorem initTrace_streams (env : Env) (s1 s2 : String) :
    initTrace { env with ffmpegStdout := s1, ffmpegStderr := s2 } = initTrace env := by
  cases env
  rfl

theorem tryBody_stdout_streams (env : Env) (s1 s2 : String) (t0 : RunResult)
    (o : String) (r : List String) :
    (tryBody { env with ffmpegStdout := s1, ffmpegStderr := s2 } t0 o r).stdout
      = (tryBody env t0 o r).stdout := by
  rcases env with ⟨pe, ts, rc, fo, fe, lm, tr, ue, su, re⟩
  unfold tryBody
  dsimp only [chosenAudio, tempWavPath]
  by_cases hpe : pe o = true
  · rw [if_pos hpe, if_pos hpe]
    cases hl : lm (r.headD "base") with
    | error e =>
      dsimp only
      by_cases hrc : (rc : Int) ≠ 0
      · rw [if_pos hrc, if_pos hrc]
      · rw [if_neg hrc, if_neg hrc]
    | ok u =>
      dsimp only
      cases ht : tr (if (rc : Int) ≠ 0 then o else ts ++ ".wav")
          (whisperOptions ((r.drop 1).headD "auto")) with
      | error e2 =>
        dsimp only
        by_cases hrc : (rc : Int) ≠ 0
        · rw [if_pos hrc, if_pos hrc]
        · rw [if_neg hrc, if_neg hrc]
      | ok text =>
        rfl
  · rw [if_neg hpe, if_neg hpe]

/-- C8: whenever the transcoding step runs, ffmpeg is invoked exactly once,
with exactly the fixed profile `-y -i <input> -acodec pcm_s16le -ar 16000
-ac 1 <temp>.wav`, the temp output path ends in `.wav`, and the captured
subprocess streams never influence what reaches the orchestrator stdout. -/
theorem run_transcoder_profile (prog original : String) (rest : List String)
    (env : Env)
    (hex : env.pathExists original = true) :
    (run (prog :: original :: rest) env).ffmpegInvocations
      = [["ffmpeg", "-y", "-i", original, "-acodec", "pcm_s16le", "-ar", "16000",
          "-ac", "1", tempWavPath env]] ∧
    (∃ stem, tempWavPath env = stem ++ ".wav") ∧
    (∀ s1 s2, (run (prog :: original :: rest)
        { env with ffmpegStdout := s1, ffmpegStderr := s2 }).stdout
      = (run (prog :: original :: rest) env).stdout) := by
  refine ⟨?_, ⟨env.tempStem, rfl⟩, ?_⟩
  · rw [show (run (prog :: original :: rest) env).ffmpegInvocations
        = (tryBody env (initTrace env) original rest).ffmpegInvocations from
      applyFinally_ffmpegInvocations env (tryBody env (initTrace env) original rest)]
    unfold tryBody
    rw [if_pos hex]
    dsimp only
    split
    · split <;> rfl
    · split
      · split <;> rfl
      · split <;> rfl
  · intro s1 s2
    rw [show (run (prog :: original :: rest) { env with ffmpegStdout := s1, ffmpegStderr := s2 }).stdout
        = (tryBody { env with ffmpegStdout := s1, ffmpegStderr := s2 }
            (initTrace { env with ffmpegStdout := s1, ffmpegStderr := s2 }) original rest).stdout from
      applyFinally_stdout _ _]
    rw [show (run (prog :: original :: rest) env).stdout
        = (tryBody env (initTrace env) original rest).stdout from
      applyFinally_stdout _ _]
    rw [initTrace_streams]
    exact tryBody_stdout_streams env s1 s2 (initTrace env) original rest

/-- Witness for C8 at a concrete invocation: the exact ffmpeg command line
of the happy path. -/
theorem run_transcoder_profile_witness :
    (run ["run_whisper.py", "a.webm"] okEnv).ffmpegInvocations
      = [["ffmpeg", "-y", "-i", "a.webm", "-acodec", "pcm_s16le", "-ar", "16000",
          "-ac", "1", "/tmp/t.wav"]] :=
  (run_transcoder_profile "run_whisper.py" "a.webm" [] okEnv rfl).1

/-! ### C9 -/

theorem tryBody_calls (env : Env) (o : String) (r : List String)
    (hex : env.pathExists o = true) :
    (tryBody env (initTrace env) o r).modelLoads = [r.headD "base"] ∧
    ((tryBody env (initTrace env) o r).engineCalls = [] ∨
      (tryBody env (initTrace env) o r).engineCalls
        = [(chosenAudio env o, whisperOptions ((r.drop 1).headD "auto"))]) := by
  unfold tryBody
  rw [if_pos hex]
  dsimp only
  split
  · exact ⟨by split <;> rfl, Or.inl (by split <;> rfl)⟩
  · split
    · exact ⟨by split <;> rfl, Or.inr (by split <;> rfl)⟩
    · exact ⟨by split <;> rfl, Or.inr (by split <;> rfl)⟩

/-- C9: the model-size argument defaults to "base" and the language to
"auto" (automatic detection, no constraint); any supplied model-size
string is handed to the loader unchanged, and any supplied language string
is forwarded into the options exactly as the source builds them. -/
theorem run_arg_defaults :
    whisperOptions "auto" = none ∧
    (∀ prog original env, env.pathExists original = true →
      (run [prog, original] env).modelLoads = ["base"] ∧
      ∀ c ∈ (run [prog, original] env).engineCalls, c.2 = whisperOptions "auto") ∧
    (∀ prog original m l env, env.pathExists original = true →
      (run [prog, original, m, l] env).modelLoads = [m] ∧
      ∀ c ∈ (run [prog, original, m, l] env).engineCalls, c.2 = whisperOptions l) := by
  refine ⟨by decide, ?_, ?_⟩
  · intro prog original env hex
    have h := tryBody_calls env original [] hex
    constructor
    · rw [show (run [prog, original] env).modelLoads
          = (tryBody env (initTrace env) original []).modelLoads from
        applyFinally_modelLoads env (tryBody env (initTrace env) original [])]
      exact h.1
    · intro c hc
      rw [show (run [prog, original] env).engineCalls
          = (tryBody env (initTrace env) original []).engineCalls from
        applyFinally_engineCalls env (tryBody env (initTrace env) original [])] at hc
      rcases h.2 with he | he
      · rw [he] at hc
        exact absurd hc (List.not_mem_nil c)
      · rw [he] at hc
        rw [List.mem_singleton.mp hc]
        rfl
  · intro prog original m l env hex
    have h := tryBody_calls env original [m, l] hex
    constructor
    · rw [show (run [prog, original, m, l] env).modelLoads
          = (tryBody env (initTrace env) original [m, l]).modelLoads from
        applyFinally_modelLoads env (tryBody env (initTrace env) original [m, l])]
      exact h.1
    · intro c hc
      rw [show (run [prog, original, m, l] env).engineCalls
          = (tryBody env (initTrace env) original [m, l]).engineCalls from
        applyFinally_engineCalls env (tryBody env (initTrace env) original [m, l])] at hc
      rcases h.2 with he | he
      · rw [he] at hc
        exact absurd hc (List.not_mem_nil c)
      · rw [he] at hc
        rw [List.mem_singleton.mp hc]
        rfl

/-- Witness for C9 at concrete invocations: two arguments load "base"; a
supplied model size is loaded verbatim. -/
theorem run_arg_defaults_witness :
    (run ["run_whisper.py", "a.webm"] okEnv).modelLoads = ["base"] ∧
    (run ["run_whisper.py", "a.webm", "small", "AUTO"] okEnv).modelLoads = ["small"] :=
  ⟨(run_arg_defaults.2.1 "run_whisper.py" "a.webm" okEnv rfl).1,
   (run_arg_defaults.2.2 "run_whisper.py" "a.webm" "small" "AUTO" okEnv rfl).1⟩

/-! ### C10 -/

/-- C10: an empty language hint behaves exactly like "auto" — no explicit
language constraint is passed to the engine. -/
theorem run_empty_language (prog original m : String) (env : Env)
    (hex : env.pathExists original = true)
    (hl : env.loadModel m = Except.ok ()) :
    (run [prog, original, m, ""] env).engineCalls
      = [(chosenAudio env original, (none : Option String))] ∧
    whisperOptions "" = whisperOptions "auto" := by
  have key : (tryBody env (initTrace env) original [m, ""]).engineCalls
      = [(chosenAudio env original, whisperOptions "")] := by
    unfold tryBody
    rw [if_pos hex]
    dsimp only [List.headD, List.drop]
    rw [hl]
    dsimp only
    cases ht : env.transcribe (chosenAudio env original) (whisperOptions "") with
    | error e =>
      dsimp only
      split <;> rfl
    | ok text =>
      dsimp only
      split <;> rfl
  constructor
  · rw [show (run [prog, original, m, ""] env).engineCalls
        = (tryBody env (initTrace env) original [m, ""]).engineCalls from
      applyFinally_engineCalls env (tryBody env (initTrace env) original [m, ""])]
    exact key
  · decide

/-- Witness for C10 at a concrete invocation: language argument "". -/
theorem run_empty_language_witness :
    (run ["run_whisper.py", "b.ogg", "tiny", ""] okEnv).engineCalls
      = [("/tmp/t.wav", (none : Option String))] :=
  (run_empty_language "run_whisper.py" "b.ogg" "tiny" okEnv rfl rfl).1
